import Mathlib

/-!
Verification of the import-mailbox-to-gmail pipeline specification.

The repository ships the unit tests, the interactive real-import test
scripts and the build script; the main pipeline script
(import-mailbox-to-gmail.py) is not present under src/, so the pipeline
itself is modelled from the specification document (sections 3, 4.2,
4.3, 4.4, 4.5), while build.py is embedded directly from its source.
-/

set_option autoImplicit false

namespace ImportMailbox

/-- Modelled from the spec: error classes raised by the remote label and
message APIs of the missing main script. `invalidName` stands for a
structurally rejected label name (reserved/system name, invalid
characters); `serverError` stands for every other remote failure. -/
inductive RemoteErr where
  | invalidName
  | serverError (msg : String)
deriving DecidableEq

/-- Modelled from the spec: a MessageRecord of the missing main script —
the raw header/body structure of one message parsed from an archive. The
headers the pipeline inspects are kept explicitly: the Message-ID header
value (if the header is present), the top-level Content-Type and its
parameter suffix; the subject stands for the rest of the payload. -/
structure EmailMessage where
  subject : String
  messageId : Option String
  contentTypeMain : Option String
  contentTypeParams : String
deriving DecidableEq

/-- Modelled from the spec: the RunConfig settings the pipeline reads —
message start offset, the two normalization flags and the retry budget. -/
structure RunConfig where
  fromMessage : Nat
  fixMsgid : Bool
  replaceQuotedPrintable : Bool
  numRetries : Nat
deriving DecidableEq

/-- Lower-casing of a string, character by character (models the
lower-casing Python applies to label names and header comparisons). -/
def lowerStr (s : String) : String :=
  String.mk (s.toList.map Char.toLower)

/-- A header value already wrapped in angle brackets: it starts with
an opening and ends with a closing angle bracket. -/
def hasAngleBrackets (v : String) : Bool :=
  v.toList.head? == some '<' && v.toList.getLast? == some '>'

/-- Modelled from the spec: the Message-ID bracket fix of the missing main
script — if a message has a Message-ID header whose value is non-empty
and not already wrapped in angle brackets, rewrite it to the value in
angle brackets; an absent header is a no-op. -/
def fixMessageId (m : EmailMessage) : EmailMessage :=
  match m.messageId with
  | none => m
  | some v =>
    if v == "" || hasAngleBrackets v then m
    else { m with messageId := some ("<" ++ v ++ ">") }

/-- Modelled from the spec: the quoted-printable content-type rewrite of
the missing main script — if the top-level Content-Type is exactly
text/quoted-printable (case-insensitive), rewrite it to text/plain,
preserving any parameters; other content types are a no-op. -/
def replaceQP (m : EmailMessage) : EmailMessage :=
  match m.contentTypeMain with
  | none => m
  | some t =>
    if lowerStr t = "text/quoted-printable" then
      { m with contentTypeMain := some "text/plain" }
    else m

/-- Modelled from the spec: both normalization options applied in order
(Message-ID bracket fix first, then the quoted-printable rewrite), each
only when its flag in the RunConfig enables it. -/
def normalizeMessage (cfg : RunConfig) (m : EmailMessage) : EmailMessage :=
  let m1 := if cfg.fixMsgid then fixMessageId m else m
  if cfg.replaceQuotedPrintable then replaceQP m1 else m1

/-- Trace of one call-with-retry invocation: the final outcome, the number
of attempts made, and the back-off sleep durations in order. -/
structure RetryTrace (ε α : Type) where
  result : Except ε α
  attempts : Nat
  sleeps : List ℚ

/-- Modelled from the spec: the retrying remote-call executor of the
missing main script, recursing on the number of retries still allowed.
`call k` is the outcome of attempt number `k` (0-based); after a failed
attempt `k` with a retry remaining it sleeps `2 ^ k` plus the jitter for
that attempt and retries; failing with no retry left propagates the last
error. The spec rule — retry while attempts-so-far is below the budget,
with a budget of 0 or 1 meaning one attempt — makes the retries remaining
after attempt `k` equal to `maxAttempts - 1 - k` (0 when the budget is
0 or 1), which is the `remaining` argument here. -/
def runRetryGo {ε α : Type} (call : Nat → Except ε α) (jitter : Nat → ℚ) :
    Nat → Nat → RetryTrace ε α
  | k, remaining =>
    match call k, remaining with
    | .ok a, _ => ⟨.ok a, 1, []⟩
    | .error e, 0 => ⟨.error e, 1, []⟩
    | .error _, r + 1 =>
      let t := runRetryGo call jitter (k + 1) r
      ⟨t.result, t.attempts + 1, ((2 : ℚ) ^ k + jitter k) :: t.sleeps⟩

/-- Modelled from the spec: one logical remote operation executed under
the bounded exponential-backoff retry policy with budget `maxAttempts`. -/
def executeWithRetry {ε α : Type} (call : Nat → Except ε α) (jitter : Nat → ℚ)
    (maxAttempts : Nat) : RetryTrace ε α :=
  runRetryGo call jitter 0 (maxAttempts - 1)

/-- Modelled from the spec: the remote environment the missing main script
talks to, one function per remote capability, each indexed by the attempt
number so that per-attempt success and failure can be described.
`createLabel name k` is the outcome of attempt `k` of creating the label
`name`; `importMsg labelId m k` is the outcome of attempt `k` of importing
the (already normalized) message `m` under the resolved label. -/
structure RemoteEnv where
  createLabel : String → Nat → Except RemoteErr String
  importMsg : String → EmailMessage → Nat → Except RemoteErr Unit

/-- Modelled from the spec: the outcome classes of label resolution. -/
inductive LabelOutcome where
  | found (id : String)
  | created (id : String)
  | skipped
  | failed
deriving DecidableEq

/-- Result of one label resolution: the outcome, the updated cache, and
whether a remote creation was requested. -/
structure ResolveResult where
  outcome : LabelOutcome
  cache : List (String × String)
  createRequested : Bool

/-- Modelled from the spec: the label resolver of the missing main script.
Case-insensitive cache lookup (the cache is keyed by lower-cased names);
a hit is `found` with no remote call; a miss attempts remote creation
through the retrying executor; a created label is inserted into the cache
under the lower-cased key; a persistent structural rejection is `skipped`
and any other persistent failure is `failed`. -/
def resolveLabel (env : RemoteEnv) (jitter : Nat → ℚ) (maxAttempts : Nat)
    (cache : List (String × String)) (name : String) : ResolveResult :=
  match cache.lookup (lowerStr name) with
  | some id => ⟨.found id, cache, false⟩
  | none =>
    match (executeWithRetry (env.createLabel name) jitter maxAttempts).result with
    | .ok id => ⟨.created id, (lowerStr name, id) :: cache, true⟩
    | .error .invalidName => ⟨.skipped, cache, true⟩
    | .error (.serverError _) => ⟨.failed, cache, true⟩

/-- Helper for the extension strip below. -/
def dropExtensionRev : List Char → Option (List Char)
  | [] => none
  | c :: rest => if c = '.' then some rest else dropExtensionRev rest

/-- Modelled from the spec: the label name derived from an archive
filename by stripping the file extension (everything from the last dot
on); a filename without a dot is kept whole. `dropExtensionRev` above
works on the reversed character list and yields the characters before
the last dot (still reversed), or `none` when there is no dot. -/
def stripExtension (filename : String) : String :=
  match dropExtensionRev filename.toList.reverse with
  | some rest => String.mk rest.reverse
  | none => filename

/-- Modelled from the spec: one archive file of a user directory — its
filename and the ordered messages parsed from it. -/
structure Archive where
  filename : String
  messages : List EmailMessage

/-- Accumulated result of one pass over the messages of an archive:
the two message counters and the normalized messages actually handed to
the importer, in order. -/
structure MsgAcc where
  imported : Nat
  failed : Nat
  observed : List EmailMessage

/-- Modelled from the spec: the per-message loop over an archive with the
resolved label `labelId`, starting at ordinal index `idx`. A message whose
index is below the start offset is skipped: no importer call, no counter
change. Every other message is normalized, handed to the importer through
the retrying executor, and counted as imported on success or as failed on
persistent failure; later messages are attempted regardless. -/
def importMessagesFrom (env : RemoteEnv) (jitter : Nat → ℚ) (cfg : RunConfig)
    (labelId : String) : Nat → List EmailMessage → MsgAcc
  | _, [] => ⟨0, 0, []⟩
  | idx, m :: rest =>
    let tail := importMessagesFrom env jitter cfg labelId (idx + 1) rest
    if idx < cfg.fromMessage then tail
    else
      let nm := normalizeMessage cfg m
      match (executeWithRetry (env.importMsg labelId nm) jitter cfg.numRetries).result with
      | .ok _ => ⟨tail.imported + 1, tail.failed, nm :: tail.observed⟩
      | .error _ => ⟨tail.imported, tail.failed + 1, nm :: tail.observed⟩

/-- Modelled from the spec: the five per-user counters of the aggregator.
The second field collapses skipped and failed labels into one count; the
third counts only failed labels. -/
structure Counters where
  labelsCreated : Nat
  labelsSkippedOrFailed : Nat
  labelsFailed : Nat
  messagesImported : Nat
  messagesFailed : Nat
deriving DecidableEq

/-- Accumulated state of one user pass: the counters, the label cache,
the normalized messages handed to the importer across all archives, and
the label names for which a remote creation was requested, in order. -/
structure UserAcc where
  counters : Counters
  cache : List (String × String)
  observed : List EmailMessage
  createRequests : List String

/-- Modelled from the spec: the per-archive step of the aggregator.
The label name is derived from the archive filename; the label is
resolved against the cache; on `found` or `created` the messages of the
archive are imported and the message counters updated; on `skipped` or
`failed` none of the messages of the archive is attempted, `skipped` and
`failed` both increment the collapsed skipped-or-failed count and
`failed` also increments the labels-failed count. -/
def processArchive (env : RemoteEnv) (jitter : Nat → ℚ) (cfg : RunConfig)
    (acc : UserAcc) (a : Archive) : UserAcc :=
  let name := stripExtension a.filename
  let r := resolveLabel env jitter cfg.numRetries acc.cache name
  let requests := if r.createRequested then acc.createRequests ++ [name]
                  else acc.createRequests
  match r.outcome with
  | .found id =>
    let msgs := importMessagesFrom env jitter cfg id 0 a.messages
    { acc with
      counters := { acc.counters with
        messagesImported := acc.counters.messagesImported + msgs.imported
        messagesFailed := acc.counters.messagesFailed + msgs.failed }
      cache := r.cache
      observed := acc.observed ++ msgs.observed
      createRequests := requests }
  | .created id =>
    let msgs := importMessagesFrom env jitter cfg id 0 a.messages
    { acc with
      counters := { acc.counters with
        labelsCreated := acc.counters.labelsCreated + 1
        messagesImported := acc.counters.messagesImported + msgs.imported
        messagesFailed := acc.counters.messagesFailed + msgs.failed }
      cache := r.cache
      observed := acc.observed ++ msgs.observed
      createRequests := requests }
  | .skipped =>
    { acc with
      counters := { acc.counters with
        labelsSkippedOrFailed := acc.counters.labelsSkippedOrFailed + 1 }
      cache := r.cache
      createRequests := requests }
  | .failed =>
    { acc with
      counters := { acc.counters with
        labelsSkippedOrFailed := acc.counters.labelsSkippedOrFailed + 1
        labelsFailed := acc.counters.labelsFailed + 1 }
      cache := r.cache
      createRequests := requests }

/-- Modelled from the spec: the per-user pass of the missing main script
(its process_mbox_files). The cache is seeded from the full remote label
listing keyed by lower-cased names, then every archive of the user
directory is processed in order. -/
def processMboxFiles (env : RemoteEnv) (jitter : Nat → ℚ) (cfg : RunConfig)
    (existingLabels : List (String × String)) (archives : List Archive) : UserAcc :=
  archives.foldl (processArchive env jitter cfg)
    ⟨⟨0, 0, 0, 0, 0⟩, existingLabels.map (fun p => (lowerStr p.1, p.2)), [], []⟩

/-- Modelled from the spec: the five-tuple returned per user —
labels created, labels skipped-or-failed collapsed into one count,
labels failed, messages imported, messages failed. -/
def processMboxFilesResult (env : RemoteEnv) (jitter : Nat → ℚ) (cfg : RunConfig)
    (existingLabels : List (String × String)) (archives : List Archive) :
    Nat × Nat × Nat × Nat × Nat :=
  let c := (processMboxFiles env jitter cfg existingLabels archives).counters
  (c.labelsCreated, c.labelsSkippedOrFailed, c.labelsFailed,
   c.messagesImported, c.messagesFailed)

/-- Modelled from the spec: the run-level loop over users. `processUser`
yields `none` when processing that user raised an unrecovered error.
Returns the count of failed users and the users attempted, in order;
a failed user never interrupts the processing of the later users. -/
def processUsers (processUser : String → Option (Nat × Nat × Nat × Nat × Nat)) :
    List String → Nat × List String
  | [] => (0, [])
  | u :: rest =>
    let later := processUsers processUser rest
    ((if (processUser u).isNone then 1 else 0) + later.1, u :: later.2)

/-- Modelled from the spec: the final summary line reporting the count of
failed users, printed at end of run. -/
def summaryLine (failedUsers : Nat) : String :=
  "    " ++ toString failedUsers ++ " users failed"

/-- Modelled from the spec: one whole run — process every user under the
root, count the failed ones, and emit the final summary line. -/
def runMain (processUser : String → Option (Nat × Nat × Nat × Nat × Nat))
    (users : List String) : Nat × List String × String :=
  let r := processUsers processUser users
  (r.1, r.2, summaryLine r.1)

/-! The build script, embedded from src/build.py. -/

/-- Outcome of one unittest run, as read by build.py from the
TextTestRunner result object. -/
structure TestRunResult where
  failures : Nat
  errors : Nat
deriving DecidableEq

/-- From src/build.py: run_tests returns whether the discovered suite had
zero failures and zero errors. -/
def run_tests (r : TestRunResult) : Bool :=
  r.failures == 0 && r.errors == 0

/-- The environment create_executable runs in: whether PyInstaller is
already importable, and whether installing it with pip would succeed. -/
structure BuildEnv where
  pyinstallerInstalled : Bool
  pipInstallSucceeds : Bool
deriving DecidableEq

/-- Observable outcome of running build.py as a script: whether
create_executable was called, whether PyInstaller was actually invoked to
build the executable, and the exit status (`none` is a normal exit). -/
structure BuildOutcome where
  calledCreateExecutable : Bool
  ranPyInstaller : Bool
  exitCode : Option Nat
deriving DecidableEq

/-- From src/build.py: create_executable tries to import PyInstaller;
on ImportError it pip-installs it, and if that install fails it exits
with status 1 without running PyInstaller; otherwise it runs PyInstaller
on the main script. -/
def create_executable (env : BuildEnv) : BuildOutcome :=
  if env.pyinstallerInstalled then ⟨true, true, none⟩
  else if env.pipInstallSucceeds then ⟨true, true, none⟩
  else ⟨true, false, some 1⟩

/-- From src/build.py: the script entry point — run the tests, and call
create_executable when they pass, else exit with status 1. -/
def buildMain (env : BuildEnv) (r : TestRunResult) : BuildOutcome :=
  if run_tests r then create_executable env
  else ⟨false, false, some 1⟩

/-! Specification-side helper definitions used to state the claims. -/

/-- The elements of a list paired with their ordinal indices, counting
from `i`. -/
def indexedFrom {α : Type} : Nat → List α → List (Nat × α)
  | _, [] => []
  | i, a :: as => (i, a) :: indexedFrom (i + 1) as

/-- Whether the retried import call for message `m` (normalized first)
under label `labelId` ends in success. -/
def importCallOk (env : RemoteEnv) (jitter : Nat → ℚ) (cfg : RunConfig)
    (labelId : String) (m : EmailMessage) : Bool :=
  match (executeWithRetry (env.importMsg labelId (normalizeMessage cfg m))
      jitter cfg.numRetries).result with
  | .ok _ => true
  | .error _ => false

/-! Helper lemmas about the retrying executor. -/

theorem runRetryGo_ok {ε α : Type} (call : Nat → Except ε α) (jitter : Nat → ℚ)
    (k r : Nat) (a : α) (h : call k = .ok a) :
    runRetryGo call jitter k r = ⟨.ok a, 1, []⟩ := by
  cases r <;> (unfold runRetryGo; rw [h])

theorem runRetryGo_fail {ε α : Type} (call : Nat → Except ε α) (jitter : Nat → ℚ)
    (e : ε) (h : ∀ i, call i = .error e) :
    ∀ r k, runRetryGo call jitter k r =
      ⟨.error e, r + 1, (List.range' k r).map fun i => (2 : ℚ) ^ i + jitter i⟩ := by
  intro r
  induction r with
  | zero =>
    intro k
    unfold runRetryGo
    rw [h k]
    rfl
  | succ r ih =>
    intro k
    unfold runRetryGo
    rw [h k]
    simp only [ih (k + 1)]
    rw [List.range'_succ]
    rfl

theorem runRetryGo_attempts_pos {ε α : Type} (call : Nat → Except ε α)
    (jitter : Nat → ℚ) : ∀ r k, 1 ≤ (runRetryGo call jitter k r).attempts := by
  intro r
  induction r with
  | zero =>
    intro k
    unfold runRetryGo
    cases h : call k <;> simp
  | succ r ih =>
    intro k
    unfold runRetryGo
    cases h : call k <;> simp

theorem runRetryGo_attempts_le {ε α : Type} (call : Nat → Except ε α)
    (jitter : Nat → ℚ) : ∀ r k, (runRetryGo call jitter k r).attempts ≤ r + 1 := by
  intro r
  induction r with
  | zero =>
    intro k
    unfold runRetryGo
    cases h : call k <;> simp
  | succ r ih =>
    intro k
    unfold runRetryGo
    cases h : call k <;> simp
    exact ih (k + 1)

theorem runRetryGo_sleeps_shape {ε α : Type} (call : Nat → Except ε α)
    (jitter : Nat → ℚ) : ∀ r k, (runRetryGo call jitter k r).sleeps =
      (List.range' k ((runRetryGo call jitter k r).attempts - 1)).map
        fun i => (2 : ℚ) ^ i + jitter i := by
  intro r
  induction r with
  | zero =>
    intro k
    unfold runRetryGo
    cases h : call k <;> simp
  | succ r ih =>
    intro k
    unfold runRetryGo
    cases h : call k <;> simp
    rw [ih (k + 1)]
    have h1 := runRetryGo_attempts_pos call jitter r (k + 1)
    rw [show (runRetryGo call jitter (k + 1) r).attempts =
      ((runRetryGo call jitter (k + 1) r).attempts - 1) + 1 by omega]
    rw [List.range'_succ]
    simp

theorem runRetryGo_error_exists {ε α : Type} (call : Nat → Except ε α)
    (jitter : Nat → ℚ) (h : ∀ i, ∃ e, call i = .error e) :
    ∀ r k, ∃ e, (runRetryGo call jitter k r).result = .error e := by
  intro r
  induction r with
  | zero =>
    intro k
    obtain ⟨e, he⟩ := h k
    unfold runRetryGo
    rw [he]
    exact ⟨e, rfl⟩
  | succ r ih =>
    intro k
    obtain ⟨e, he⟩ := h k
    unfold runRetryGo
    rw [he]
    exact ih (k + 1)

theorem executeWithRetry_ok0 {ε α : Type} (call : Nat → Except ε α)
    (jitter : Nat → ℚ) (n : Nat) (a : α) (h : call 0 = .ok a) :
    executeWithRetry call jitter n = ⟨.ok a, 1, []⟩ :=
  runRetryGo_ok call jitter 0 (n - 1) a h

theorem executeWithRetry_fail {ε α : Type} (call : Nat → Except ε α)
    (jitter : Nat → ℚ) (n : Nat) (e : ε) (h : ∀ i, call i = .error e) :
    executeWithRetry call jitter n =
      ⟨.error e, n - 1 + 1, (List.range' 0 (n - 1)).map
        fun i => (2 : ℚ) ^ i + jitter i⟩ :=
  runRetryGo_fail call jitter e h (n - 1) 0

theorem runRetryGo_fail_last {ε α : Type} (call : Nat → Except ε α)
    (jitter : Nat → ℚ) (es : Nat → ε) (h : ∀ i, call i = .error (es i)) :
    ∀ r k, runRetryGo call jitter k r =
      ⟨.error (es (k + r)), r + 1,
        (List.range' k r).map fun i => (2 : ℚ) ^ i + jitter i⟩ := by
  intro r
  induction r with
  | zero =>
    intro k
    unfold runRetryGo
    rw [h k]
    rfl
  | succ r ih =>
    intro k
    unfold runRetryGo
    rw [h k]
    simp only [ih (k + 1)]
    rw [List.range'_succ, show k + 1 + r = k + (r + 1) by omega]
    rfl

/-- Claim C2 (counterexample): with budget `maxAttempts = 1` and a call
failing on every attempt, the executor makes one attempt — attempt
number 0 fails and `0 < maxAttempts`, yet no sleep and no retry follows,
so the claimed retry rule "after a failed attempt numbered `attempt`
(0-based) with `attempt < maxAttempts` it sleeps and retries" is false;
moreover with budget 0 one attempt is made, so "at most `maxAttempts`
attempts" is false at `maxAttempts = 0`. -/
theorem retry_rule_counterexample :
    (executeWithRetry (fun _ => (Except.error 0 : Except Nat Unit))
        (fun _ => 0) 1).result = Except.error 0
    ∧ (0 : Nat) < 1
    ∧ ¬ (2 ≤ (executeWithRetry (fun _ => (Except.error 0 : Except Nat Unit))
        (fun _ => 0) 1).attempts)
    ∧ (executeWithRetry (fun _ => (Except.error 0 : Except Nat Unit))
        (fun _ => 0) 1).sleeps = []
    ∧ ¬ ((executeWithRetry (fun _ => (Except.error 0 : Except Nat Unit))
        (fun _ => 0) 0).attempts ≤ 0) := by
  refine ⟨rfl, by omega, ?_, rfl, ?_⟩ <;> simp [executeWithRetry, runRetryGo]

/-- Claim C2 (amended): for every remote call the executor makes at least
one and at most `max 1 maxAttempts` attempts, so its retry loop always
terminates; after a failed attempt numbered `attempt` (0-based) that
still has a retry left — that is, with `attempt + 1 < maxAttempts` — it
sleeps `2 ^ attempt` plus the jitter drawn for that attempt and retries,
so on a persistently failing call the sleeps are exactly
`2 ^ 0 + jitter 0, …, 2 ^ (max 1 maxAttempts - 2) + jitter that` in
order; on failure of the final attempt it propagates the error of that
last attempt to the caller; a budget of 0 or 1 means exactly one attempt
with no retry and no sleep. -/
theorem retry_policy_amended {ε α : Type} (call : Nat → Except ε α)
    (jitter : Nat → ℚ) (n : Nat) (es : Nat → ε)
    (hfail : ∀ i, call i = .error (es i)) :
    (∀ (c : Nat → Except ε α) (j : Nat → ℚ) (m : Nat),
        1 ≤ (executeWithRetry c j m).attempts
        ∧ (executeWithRetry c j m).attempts ≤ max 1 m)
    ∧ (executeWithRetry call jitter n).attempts = max 1 n
    ∧ (executeWithRetry call jitter n).result = .error (es (max 1 n - 1))
    ∧ (executeWithRetry call jitter n).sleeps =
        (List.range' 0 (max 1 n - 1)).map (fun i => (2 : ℚ) ^ i + jitter i)
    ∧ (n ≤ 1 → (executeWithRetry call jitter n).attempts = 1
        ∧ (executeWithRetry call jitter n).sleeps = []) := by
  have hrun := runRetryGo_fail_last call jitter es hfail (n - 1) 0
  have hmax : n - 1 = max 1 n - 1 := by omega
  refine ⟨?_, ?_, ?_, ?_, ?_⟩
  · intro c j m
    refine ⟨runRetryGo_attempts_pos c j (m - 1) 0, ?_⟩
    have := runRetryGo_attempts_le c j (m - 1) 0
    unfold executeWithRetry
    omega
  · unfold executeWithRetry
    rw [hrun]
    show n - 1 + 1 = max 1 n
    omega
  · unfold executeWithRetry
    rw [hrun]
    show Except.error (es (0 + (n - 1))) = Except.error (es (max 1 n - 1))
    rw [Nat.zero_add, hmax]
  · unfold executeWithRetry
    rw [hrun, hmax]
  · intro hn
    unfold executeWithRetry
    rw [hrun]
    constructor
    · show n - 1 + 1 = 1
      omega
    · show (List.range' 0 (n - 1)).map (fun i => (2 : ℚ) ^ i + jitter i) = []
      have h0 : n - 1 = 0 := by omega
      rw [h0]
      rfl

/-- Witness for the amended claim C2 at a concrete persistently failing
call with budget 3 and zero jitter. -/
theorem retry_policy_amended_witness :
    (executeWithRetry (fun _ => (Except.error 7 : Except Nat Unit))
        (fun _ => 0) 3).attempts = max 1 3
    ∧ (executeWithRetry (fun _ => (Except.error 7 : Except Nat Unit))
        (fun _ => 0) 3).result = Except.error 7 :=
  ⟨(retry_policy_amended (fun _ => (Except.error 7 : Except Nat Unit))
      (fun _ => 0) 3 (fun _ => 7) (fun _ => rfl)).2.1,
   (retry_policy_amended (fun _ => (Except.error 7 : Except Nat Unit))
      (fun _ => 0) 3 (fun _ => 7) (fun _ => rfl)).2.2.1⟩

/-! Helper lemmas about the per-message loop. -/

theorem importMessagesFrom_cons_skip (env : RemoteEnv) (jitter : Nat → ℚ)
    (cfg : RunConfig) (id : String) (idx : Nat) (m : EmailMessage)
    (rest : List EmailMessage) (h : idx < cfg.fromMessage) :
    importMessagesFrom env jitter cfg id idx (m :: rest) =
      importMessagesFrom env jitter cfg id (idx + 1) rest := by
  conv_lhs => unfold importMessagesFrom
  rw [if_pos h]

theorem importMessagesFrom_cons_ok (env : RemoteEnv) (jitter : Nat → ℚ)
    (cfg : RunConfig) (id : String) (idx : Nat) (m : EmailMessage)
    (rest : List EmailMessage) (h : ¬ idx < cfg.fromMessage) (a : Unit)
    (hr : (executeWithRetry (env.importMsg id (normalizeMessage cfg m))
      jitter cfg.numRetries).result = .ok a) :
    importMessagesFrom env jitter cfg id idx (m :: rest) =
      ⟨(importMessagesFrom env jitter cfg id (idx + 1) rest).imported + 1,
       (importMessagesFrom env jitter cfg id (idx + 1) rest).failed,
       normalizeMessage cfg m ::
         (importMessagesFrom env jitter cfg id (idx + 1) rest).observed⟩ := by
  conv_lhs => unfold importMessagesFrom
  simp only [if_neg h, hr]

theorem importMessagesFrom_cons_err (env : RemoteEnv) (jitter : Nat → ℚ)
    (cfg : RunConfig) (id : String) (idx : Nat) (m : EmailMessage)
    (rest : List EmailMessage) (h : ¬ idx < cfg.fromMessage) (e : RemoteErr)
    (hr : (executeWithRetry (env.importMsg id (normalizeMessage cfg m))
      jitter cfg.numRetries).result = .error e) :
    importMessagesFrom env jitter cfg id idx (m :: rest) =
      ⟨(importMessagesFrom env jitter cfg id (idx + 1) rest).imported,
       (importMessagesFrom env jitter cfg id (idx + 1) rest).failed + 1,
       normalizeMessage cfg m ::
         (importMessagesFrom env jitter cfg id (idx + 1) rest).observed⟩ := by
  conv_lhs => unfold importMessagesFrom
  simp only [if_neg h, hr]

theorem importMessagesFrom_observed (env : RemoteEnv) (jitter : Nat → ℚ)
    (cfg : RunConfig) (id : String) :
    ∀ (ms : List EmailMessage) (idx : Nat),
      (importMessagesFrom env jitter cfg id idx ms).observed =
        ((indexedFrom idx ms).filter fun p => decide (cfg.fromMessage ≤ p.1)).map
          fun p => normalizeMessage cfg p.2 := by
  intro ms
  induction ms with
  | nil => intro idx; rfl
  | cons m rest ih =>
    intro idx
    by_cases h : idx < cfg.fromMessage
    · rw [importMessagesFrom_cons_skip env jitter cfg id idx m rest h]
      unfold indexedFrom
      rw [List.filter_cons_of_neg (by simp; omega)]
      exact ih (idx + 1)
    · cases hr : (executeWithRetry (env.importMsg id (normalizeMessage cfg m))
        jitter cfg.numRetries).result with
      | ok a =>
        rw [importMessagesFrom_cons_ok env jitter cfg id idx m rest h a hr]
        unfold indexedFrom
        rw [List.filter_cons_of_pos (by simp; omega)]
        simp only [List.map_cons]
        rw [ih (idx + 1)]
      | error e =>
        rw [importMessagesFrom_cons_err env jitter cfg id idx m rest h e hr]
        unfold indexedFrom
        rw [List.filter_cons_of_pos (by simp; omega)]
        simp only [List.map_cons]
        rw [ih (idx + 1)]

theorem importMessagesFrom_imported (env : RemoteEnv) (jitter : Nat → ℚ)
    (cfg : RunConfig) (id : String) :
    ∀ (ms : List EmailMessage) (idx : Nat),
      (importMessagesFrom env jitter cfg id idx ms).imported =
        ((indexedFrom idx ms).filter fun p =>
          decide (cfg.fromMessage ≤ p.1) && importCallOk env jitter cfg id p.2).length := by
  intro ms
  induction ms with
  | nil => intro idx; rfl
  | cons m rest ih =>
    intro idx
    by_cases h : idx < cfg.fromMessage
    · rw [importMessagesFrom_cons_skip env jitter cfg id idx m rest h]
      unfold indexedFrom
      rw [List.filter_cons_of_neg (by simp; omega)]
      exact ih (idx + 1)
    · cases hr : (executeWithRetry (env.importMsg id (normalizeMessage cfg m))
        jitter cfg.numRetries).result with
      | ok a =>
        rw [importMessagesFrom_cons_ok env jitter cfg id idx m rest h a hr]
        unfold indexedFrom
        rw [List.filter_cons_of_pos
          (by simp [importCallOk, hr]; omega)]
        rw [List.length_cons, ih (idx + 1)]
      | error e =>
        rw [importMessagesFrom_cons_err env jitter cfg id idx m rest h e hr]
        unfold indexedFrom
        rw [List.filter_cons_of_neg
          (by simp [importCallOk, hr])]
        exact ih (idx + 1)

theorem importMessagesFrom_failed (env : RemoteEnv) (jitter : Nat → ℚ)
    (cfg : RunConfig) (id : String) :
    ∀ (ms : List EmailMessage) (idx : Nat),
      (importMessagesFrom env jitter cfg id idx ms).failed =
        ((indexedFrom idx ms).filter fun p =>
          decide (cfg.fromMessage ≤ p.1) && !importCallOk env jitter cfg id p.2).length := by
  intro ms
  induction ms with
  | nil => intro idx; rfl
  | cons m rest ih =>
    intro idx
    by_cases h : idx < cfg.fromMessage
    · rw [importMessagesFrom_cons_skip env jitter cfg id idx m rest h]
      unfold indexedFrom
      rw [List.filter_cons_of_neg (by simp; omega)]
      exact ih (idx + 1)
    · cases hr : (executeWithRetry (env.importMsg id (normalizeMessage cfg m))
        jitter cfg.numRetries).result with
      | ok a =>
        rw [importMessagesFrom_cons_ok env jitter cfg id idx m rest h a hr]
        unfold indexedFrom
        rw [List.filter_cons_of_neg (by simp [importCallOk, hr])]
        exact ih (idx + 1)
      | error e =>
        rw [importMessagesFrom_cons_err env jitter cfg id idx m rest h e hr]
        unfold indexedFrom
        rw [List.filter_cons_of_pos
          (by simp [importCallOk, hr]; omega)]
        rw [List.length_cons, ih (idx + 1)]

theorem importMessagesFrom_counts (env : RemoteEnv) (jitter : Nat → ℚ)
    (cfg : RunConfig) (id : String) :
    ∀ (ms : List EmailMessage) (idx : Nat),
      (importMessagesFrom env jitter cfg id idx ms).imported
        + (importMessagesFrom env jitter cfg id idx ms).failed
        = (importMessagesFrom env jitter cfg id idx ms).observed.length := by
  intro ms
  induction ms with
  | nil => intro idx; rfl
  | cons m rest ih =>
    intro idx
    by_cases h : idx < cfg.fromMessage
    · rw [importMessagesFrom_cons_skip env jitter cfg id idx m rest h]
      exact ih (idx + 1)
    · cases hr : (executeWithRetry (env.importMsg id (normalizeMessage cfg m))
        jitter cfg.numRetries).result with
      | ok a =>
        rw [importMessagesFrom_cons_ok env jitter cfg id idx m rest h a hr]
        have := ih (idx + 1)
        simp only [List.length_cons]
        omega
      | error e =>
        rw [importMessagesFrom_cons_err env jitter cfg id idx m rest h e hr]
        have := ih (idx + 1)
        simp only [List.length_cons]
        omega

/-! Helper lemmas about normalization. -/

theorem replaceQP_messageId (m : EmailMessage) :
    (replaceQP m).messageId = m.messageId := by
  unfold replaceQP
  cases m.contentTypeMain <;> simp only
  split <;> rfl

theorem fixMessageId_contentTypeMain (m : EmailMessage) :
    (fixMessageId m).contentTypeMain = m.contentTypeMain := by
  unfold fixMessageId
  cases m.messageId <;> simp only
  split <;> rfl

theorem fixMessageId_contentTypeParams (m : EmailMessage) :
    (fixMessageId m).contentTypeParams = m.contentTypeParams := by
  unfold fixMessageId
  cases m.messageId <;> simp only
  split <;> rfl

theorem indexedFrom_length {α : Type} (ms : List α) :
    ∀ idx, (indexedFrom idx ms).length = ms.length := by
  induction ms with
  | nil => intro idx; rfl
  | cons a as ih =>
    intro idx
    unfold indexedFrom
    rw [List.length_cons, List.length_cons, ih (idx + 1)]

theorem indexedFrom_map_snd {α β : Type} (g : α → β) (ms : List α) :
    ∀ idx, (indexedFrom idx ms).map (fun p => g p.2) = ms.map g := by
  induction ms with
  | nil => intro idx; rfl
  | cons a as ih =>
    intro idx
    unfold indexedFrom
    rw [List.map_cons, List.map_cons, ih (idx + 1)]

/-- Claim C5: for every archive pass, the messages handed to the importer
are exactly the normalized messages whose 0-based ordinal index is at
least the start offset, in order — messages below the offset produce
no importer call and are counted neither as imported nor as failed,
and imported plus failed accounts for every attempted message; also
with offset 1 on a 2-message archive only the second message is
attempted. -/
theorem start_offset_policy (env : RemoteEnv) (jitter : Nat → ℚ)
    (cfg : RunConfig) (id : String) (ms : List EmailMessage) :
    (importMessagesFrom env jitter cfg id 0 ms).observed =
      ((indexedFrom 0 ms).filter fun p => decide (cfg.fromMessage ≤ p.1)).map
        (fun p => normalizeMessage cfg p.2)
    ∧ (importMessagesFrom env jitter cfg id 0 ms).imported
        + (importMessagesFrom env jitter cfg id 0 ms).failed
        = ((indexedFrom 0 ms).filter fun p => decide (cfg.fromMessage ≤ p.1)).length
    ∧ (∀ a b, cfg.fromMessage = 1 → ms = [a, b] →
        (importMessagesFrom env jitter cfg id 0 ms).observed =
          [normalizeMessage cfg b]) := by
  refine ⟨importMessagesFrom_observed env jitter cfg id ms 0, ?_, ?_⟩
  · rw [importMessagesFrom_counts env jitter cfg id ms 0,
      importMessagesFrom_observed env jitter cfg id ms 0, List.length_map]
  · intro a b hfrom hms
    subst hms
    rw [importMessagesFrom_observed env jitter cfg id [a, b] 0]
    simp [indexedFrom, hfrom]

/-- Witness for claim C5 at a concrete 2-message archive with start
offset 1: only the second message is handed to the importer. -/
theorem start_offset_policy_witness :
    (importMessagesFrom ⟨fun _ _ => .ok "L", fun _ _ _ => .ok ()⟩ (fun _ => 0)
        ⟨1, true, true, 1⟩ "L" 0
        [⟨"first", none, none, ""⟩, ⟨"second", none, none, ""⟩]).observed =
      [normalizeMessage ⟨1, true, true, 1⟩ ⟨"second", none, none, ""⟩] :=
  (start_offset_policy ⟨fun _ _ => .ok "L", fun _ _ _ => .ok ()⟩ (fun _ => 0)
      ⟨1, true, true, 1⟩ "L"
      [⟨"first", none, none, ""⟩, ⟨"second", none, none, ""⟩]).2.2
    ⟨"first", none, none, ""⟩ ⟨"second", none, none, ""⟩ rfl rfl

/-- Claim C6: with the fix-message-id option enabled, a message with a
non-empty Message-ID header value not already wrapped in angle brackets
is observed by the importer with that header rewritten to the value in
angle brackets; with the option disabled the header is observed
unchanged; a message without the header is unchanged in either mode. -/
theorem msgid_fix_behavior (env : RemoteEnv) (jitter : Nat → ℚ)
    (cfg : RunConfig) (id : String) (m : EmailMessage)
    (hfrom : cfg.fromMessage = 0) :
    (importMessagesFrom env jitter cfg id 0 [m]).observed =
      [normalizeMessage cfg m]
    ∧ (∀ v, cfg.fixMsgid = true → m.messageId = some v → v ≠ "" →
        hasAngleBrackets v = false →
        (normalizeMessage cfg m).messageId = some ("<" ++ v ++ ">"))
    ∧ (cfg.fixMsgid = false →
        (normalizeMessage cfg m).messageId = m.messageId)
    ∧ (m.messageId = none → (normalizeMessage cfg m).messageId = none) := by
  refine ⟨?_, ?_, ?_, ?_⟩
  · rw [importMessagesFrom_observed env jitter cfg id [m] 0]
    simp [indexedFrom, hfrom]
  · intro v hfix hmid hne hbr
    have hv : (v == "") = false := by
      cases hv : v == "" with
      | true => exact absurd (by simpa using hv) hne
      | false => rfl
    have hfm : (fixMessageId m).messageId = some ("<" ++ v ++ ">") := by
      simp [fixMessageId, hmid, hv, hbr]
    by_cases hq : cfg.replaceQuotedPrintable <;>
      simp [normalizeMessage, hfix, hq, replaceQP_messageId, hfm]
  · intro hfix
    by_cases hq : cfg.replaceQuotedPrintable <;>
      simp [normalizeMessage, hfix, hq, replaceQP_messageId]
  · intro hnone
    have hfm : (fixMessageId m).messageId = none := by
      simp [fixMessageId, hnone]
    by_cases hf : cfg.fixMsgid <;> by_cases hq : cfg.replaceQuotedPrintable <;>
      simp [normalizeMessage, hf, hq, replaceQP_messageId, hfm, hnone]

/-- Witness for claim C6: the concrete unwrapped Message-ID of the unit
test is rewritten into angle brackets when the fix option is on. -/
theorem msgid_fix_behavior_witness :
    (normalizeMessage ⟨0, true, true, 1⟩
        ⟨"Test NoMsgID", some "no-brackets@example.com", none, ""⟩).messageId =
      some ("<" ++ "no-brackets@example.com" ++ ">") :=
  (msgid_fix_behavior ⟨fun _ _ => .ok "L", fun _ _ _ => .ok ()⟩ (fun _ => 0)
      ⟨0, true, true, 1⟩ "L"
      ⟨"Test NoMsgID", some "no-brackets@example.com", none, ""⟩ rfl).2.1
    "no-brackets@example.com" rfl rfl (by decide) (by decide)

/-- Claim C7: with the replace-quoted-printable option enabled, a message
whose top-level Content-Type is exactly text/quoted-printable compared
case-insensitively is observed by the importer with Content-Type
text/plain and its parameters preserved; with the option disabled the
Content-Type is observed unchanged; any other content type is never
rewritten. -/
theorem qp_rewrite_behavior (env : RemoteEnv) (jitter : Nat → ℚ)
    (cfg : RunConfig) (id : String) (m : EmailMessage)
    (hfrom : cfg.fromMessage = 0) :
    (importMessagesFrom env jitter cfg id 0 [m]).observed =
      [normalizeMessage cfg m]
    ∧ (∀ t, cfg.replaceQuotedPrintable = true → m.contentTypeMain = some t →
        lowerStr t = "text/quoted-printable" →
        (normalizeMessage cfg m).contentTypeMain = some "text/plain"
        ∧ (normalizeMessage cfg m).contentTypeParams = m.contentTypeParams)
    ∧ (cfg.replaceQuotedPrintable = false →
        (normalizeMessage cfg m).contentTypeMain = m.contentTypeMain
        ∧ (normalizeMessage cfg m).contentTypeParams = m.contentTypeParams)
    ∧ (∀ t, m.contentTypeMain = some t →
        lowerStr t ≠ "text/quoted-printable" →
        (normalizeMessage cfg m).contentTypeMain = m.contentTypeMain
        ∧ (normalizeMessage cfg m).contentTypeParams = m.contentTypeParams) := by
  have hone : ∀ m1 : EmailMessage,
      (if cfg.fixMsgid then fixMessageId m1 else m1).contentTypeMain
        = m1.contentTypeMain
      ∧ (if cfg.fixMsgid then fixMessageId m1 else m1).contentTypeParams
        = m1.contentTypeParams := by
    intro m1
    by_cases hf : cfg.fixMsgid
    · rw [if_pos hf]
      exact ⟨fixMessageId_contentTypeMain m1, fixMessageId_contentTypeParams m1⟩
    · rw [if_neg hf]
      exact ⟨rfl, rfl⟩
  refine ⟨?_, ?_, ?_, ?_⟩
  · rw [importMessagesFrom_observed env jitter cfg id [m] 0]
    simp [indexedFrom, hfrom]
  · intro t hrep hct hlow
    have h1 := (hone m).1
    have h2 := (hone m).2
    constructor <;> simp [normalizeMessage, hrep, replaceQP, h1, h2, hct, hlow]
  · intro hrep
    have h1 := (hone m).1
    have h2 := (hone m).2
    constructor <;> simp [normalizeMessage, hrep, h1, h2]
  · intro t hct hlow
    have h1 := (hone m).1
    have h2 := (hone m).2
    by_cases hq : cfg.replaceQuotedPrintable <;> constructor <;>
      simp [normalizeMessage, hq, replaceQP, h1, h2, hct, hlow]

/-- Witness for claim C7: the concrete quoted-printable message of the
unit test is observed with Content-Type text/plain when the replace
option is on. -/
theorem qp_rewrite_behavior_witness :
    (normalizeMessage ⟨0, true, true, 1⟩
        ⟨"Test QP", none, some "text/quoted-printable", ""⟩).contentTypeMain =
      some "text/plain" :=
  ((qp_rewrite_behavior ⟨fun _ _ => .ok "L", fun _ _ _ => .ok ()⟩ (fun _ => 0)
      ⟨0, true, true, 1⟩ "L"
      ⟨"Test QP", none, some "text/quoted-printable", ""⟩ rfl).2.1
    "text/quoted-printable" rfl rfl (by decide)).1

/-! Helper lemmas about label resolution and the per-archive step. -/

theorem resolveLabel_miss_ok (env : RemoteEnv) (jitter : Nat → ℚ) (n : Nat)
    (cache : List (String × String)) (name id : String)
    (hmiss : cache.lookup (lowerStr name) = none)
    (hok : env.createLabel name 0 = .ok id) :
    resolveLabel env jitter n cache name =
      ⟨.created id, (lowerStr name, id) :: cache, true⟩ := by
  unfold resolveLabel
  rw [hmiss, executeWithRetry_ok0 (env.createLabel name) jitter n id hok]

theorem resolveLabel_miss_server (env : RemoteEnv) (jitter : Nat → ℚ) (n : Nat)
    (cache : List (String × String)) (name msg : String)
    (hmiss : cache.lookup (lowerStr name) = none)
    (hfail : ∀ k, env.createLabel name k = .error (.serverError msg)) :
    resolveLabel env jitter n cache name = ⟨.failed, cache, true⟩ := by
  unfold resolveLabel
  rw [hmiss,
    executeWithRetry_fail (env.createLabel name) jitter n (.serverError msg) hfail]

/-- Claim C3: an archive whose label creation still fails, for a
non-structural reason, after the retry budget is exhausted increments the
labels-failed counter by exactly 1, and none of its messages is ever
attempted — the message counters are unchanged and the importer observes
no message of that archive. -/
theorem label_failure_no_import (env : RemoteEnv) (jitter : Nat → ℚ)
    (cfg : RunConfig) (acc : UserAcc) (a : Archive) (msg : String)
    (hmiss : acc.cache.lookup (lowerStr (stripExtension a.filename)) = none)
    (hfail : ∀ k, env.createLabel (stripExtension a.filename) k =
      .error (.serverError msg)) :
    (processArchive env jitter cfg acc a).counters.labelsFailed
        = acc.counters.labelsFailed + 1
    ∧ (processArchive env jitter cfg acc a).counters.messagesImported
        = acc.counters.messagesImported
    ∧ (processArchive env jitter cfg acc a).counters.messagesFailed
        = acc.counters.messagesFailed
    ∧ (processArchive env jitter cfg acc a).observed = acc.observed := by
  simp only [processArchive,
    resolveLabel_miss_server env jitter cfg.numRetries acc.cache
      (stripExtension a.filename) msg hmiss hfail]
  exact ⟨trivial, trivial, trivial, trivial⟩

/-- Witness for claim C3 at a concrete archive whose label creation
always fails with a server error. -/
theorem label_failure_no_import_witness :
    (processArchive
        ⟨fun _ _ => .error (.serverError "boom"), fun _ _ _ => .ok ()⟩
        (fun _ => 0) ⟨0, true, true, 1⟩ ⟨⟨0, 0, 0, 0, 0⟩, [], [], []⟩
        ⟨"test.mbox", [⟨"one", none, none, ""⟩, ⟨"two", none, none, ""⟩]⟩
      ).counters.labelsFailed = 0 + 1 :=
  (label_failure_no_import
      ⟨fun _ _ => .error (.serverError "boom"), fun _ _ _ => .ok ()⟩
      (fun _ => 0) ⟨0, true, true, 1⟩ ⟨⟨0, 0, 0, 0, 0⟩, [], [], []⟩
      ⟨"test.mbox", [⟨"one", none, none, ""⟩, ⟨"two", none, none, ""⟩]⟩
      "boom" rfl (fun _ => rfl)).1

/-- Claim C1: over one user directory holding a single parsable 2-message
archive, with no pre-existing remote labels and every remote create
and import call succeeding, the per-user pass reports 2 imported and
0 messages failed, and exactly one label creation is requested, named by
the archive filename with its extension stripped — concretely,
"Test Import.mbox" yields the label name "Test Import". -/
theorem two_message_import_success (env : RemoteEnv) (jitter : Nat → ℚ)
    (cfg : RunConfig) (f : String) (m1 m2 : EmailMessage)
    (hfrom : cfg.fromMessage = 0)
    (hcreate : ∀ name k, ∃ id, env.createLabel name k = .ok id)
    (himport : ∀ id m k, env.importMsg id m k = .ok ()) :
    (processMboxFiles env jitter cfg [] [⟨f, [m1, m2]⟩]).counters.messagesImported = 2
    ∧ (processMboxFiles env jitter cfg [] [⟨f, [m1, m2]⟩]).counters.messagesFailed = 0
    ∧ (processMboxFiles env jitter cfg [] [⟨f, [m1, m2]⟩]).counters.labelsCreated = 1
    ∧ (processMboxFiles env jitter cfg [] [⟨f, [m1, m2]⟩]).createRequests
        = [stripExtension f]
    ∧ stripExtension "Test Import.mbox" = "Test Import" := by
  obtain ⟨id0, hid⟩ := hcreate (stripExtension f) 0
  have hok : ∀ id m, importCallOk env jitter cfg id m = true := by
    intro id m
    unfold importCallOk
    rw [executeWithRetry_ok0 (env.importMsg id (normalizeMessage cfg m)) jitter
      cfg.numRetries () (himport id (normalizeMessage cfg m) 0)]
  have hsingle : processMboxFiles env jitter cfg [] [⟨f, [m1, m2]⟩] =
      processArchive env jitter cfg ⟨⟨0, 0, 0, 0, 0⟩, [], [], []⟩ ⟨f, [m1, m2]⟩ := rfl
  rw [hsingle]
  simp only [processArchive,
    resolveLabel_miss_ok env jitter cfg.numRetries [] (stripExtension f) id0 rfl hid]
  refine ⟨?_, ?_, by trivial, by trivial, by decide⟩
  · show 0 + (importMessagesFrom env jitter cfg id0 0 [m1, m2]).imported = 2
    rw [importMessagesFrom_imported env jitter cfg id0 [m1, m2] 0]
    simp [indexedFrom, hfrom, hok]
  · show 0 + (importMessagesFrom env jitter cfg id0 0 [m1, m2]).failed = 0
    rw [importMessagesFrom_failed env jitter cfg id0 [m1, m2] 0]
    simp [indexedFrom, hfrom, hok]

/-- Witness for claim C1 at the concrete scenario of the tests — the
archive "Test Import.mbox" with two messages, an always-succeeding remote
service and no pre-existing labels. -/
theorem two_message_import_success_witness :
    (processMboxFiles ⟨fun _ _ => .ok "LABEL_1", fun _ _ _ => .ok ()⟩
        (fun _ => 0) ⟨0, true, true, 3⟩ []
        [⟨"Test Import.mbox",
          [⟨"Test message 1", none, none, ""⟩,
           ⟨"Test message 2", none, none, ""⟩]⟩]).counters.messagesImported = 2
    ∧ (processMboxFiles ⟨fun _ _ => .ok "LABEL_1", fun _ _ _ => .ok ()⟩
        (fun _ => 0) ⟨0, true, true, 3⟩ []
        [⟨"Test Import.mbox",
          [⟨"Test message 1", none, none, ""⟩,
           ⟨"Test message 2", none, none, ""⟩]⟩]).createRequests
        = [stripExtension "Test Import.mbox"] :=
  ⟨(two_message_import_success ⟨fun _ _ => .ok "LABEL_1", fun _ _ _ => .ok ()⟩
      (fun _ => 0) ⟨0, true, true, 3⟩ "Test Import.mbox"
      ⟨"Test message 1", none, none, ""⟩ ⟨"Test message 2", none, none, ""⟩
      rfl (fun _ _ => ⟨"LABEL_1", rfl⟩) (fun _ _ _ => rfl)).1,
   (two_message_import_success ⟨fun _ _ => .ok "LABEL_1", fun _ _ _ => .ok ()⟩
      (fun _ => 0) ⟨0, true, true, 3⟩ "Test Import.mbox"
      ⟨"Test message 1", none, none, ""⟩ ⟨"Test message 2", none, none, ""⟩
      rfl (fun _ _ => ⟨"LABEL_1", rfl⟩) (fun _ _ _ => rfl)).2.2.2.1⟩

/-- Claim C4: when the label of an archive is resolved (created here) but
every import call fails persistently, each failing message increments
messages-failed by exactly 1 and the remaining messages of the archive
are still attempted: the pass reports 0 imported, as many failures as the
archive has messages, and the importer observed every message of the
archive in order. -/
theorem message_failures_counted (env : RemoteEnv) (jitter : Nat → ℚ)
    (cfg : RunConfig) (f : String) (ms : List EmailMessage)
    (hfrom : cfg.fromMessage = 0)
    (hcreate : ∀ name k, ∃ id, env.createLabel name k = .ok id)
    (himport : ∀ id m k, ∃ e, env.importMsg id m k = .error e) :
    (processMboxFiles env jitter cfg [] [⟨f, ms⟩]).counters.messagesImported = 0
    ∧ (processMboxFiles env jitter cfg [] [⟨f, ms⟩]).counters.messagesFailed
        = ms.length
    ∧ (processMboxFiles env jitter cfg [] [⟨f, ms⟩]).counters.labelsCreated = 1
    ∧ (processMboxFiles env jitter cfg [] [⟨f, ms⟩]).observed
        = ms.map (normalizeMessage cfg) := by
  obtain ⟨id0, hid⟩ := hcreate (stripExtension f) 0
  have hnotok : ∀ id m, importCallOk env jitter cfg id m = false := by
    intro id m
    unfold importCallOk
    obtain ⟨e, he⟩ := runRetryGo_error_exists
      (env.importMsg id (normalizeMessage cfg m)) jitter
      (fun i => himport id (normalizeMessage cfg m) i) (cfg.numRetries - 1) 0
    unfold executeWithRetry
    rw [he]
  have hsingle : processMboxFiles env jitter cfg [] [⟨f, ms⟩] =
      processArchive env jitter cfg ⟨⟨0, 0, 0, 0, 0⟩, [], [], []⟩ ⟨f, ms⟩ := rfl
  rw [hsingle]
  simp only [processArchive,
    resolveLabel_miss_ok env jitter cfg.numRetries [] (stripExtension f) id0 rfl hid]
  refine ⟨?_, ?_, by trivial, ?_⟩
  · show 0 + (importMessagesFrom env jitter cfg id0 0 ms).imported = 0
    rw [importMessagesFrom_imported env jitter cfg id0 ms 0]
    simp [hnotok]
  · show 0 + (importMessagesFrom env jitter cfg id0 0 ms).failed = ms.length
    rw [importMessagesFrom_failed env jitter cfg id0 ms 0]
    simp only [hnotok, Bool.not_false, Bool.and_true, hfrom, Nat.zero_le,
      decide_True, List.filter_true]
    rw [indexedFrom_length]
    omega
  · show [] ++ (importMessagesFrom env jitter cfg id0 0 ms).observed
        = ms.map (normalizeMessage cfg)
    rw [List.nil_append, importMessagesFrom_observed env jitter cfg id0 ms 0]
    simp only [hfrom, Nat.zero_le, decide_True, List.filter_true]
    exact indexedFrom_map_snd (normalizeMessage cfg) ms 0

/-- Witness for claim C4 at the concrete scenario of the tests — a
2-message archive whose label is created but whose every import call
fails: 0 imported, 2 failed. -/
theorem message_failures_counted_witness :
    (processMboxFiles
        ⟨fun _ _ => .ok "LABEL_1", fun _ _ _ => .error (.serverError "Import Failed")⟩
        (fun _ => 0) ⟨0, true, true, 1⟩ []
        [⟨"test.mbox",
          [⟨"Test message 1", none, none, ""⟩,
           ⟨"Test message 2", none, none, ""⟩]⟩]).counters.messagesImported = 0
    ∧ (processMboxFiles
        ⟨fun _ _ => .ok "LABEL_1", fun _ _ _ => .error (.serverError "Import Failed")⟩
        (fun _ => 0) ⟨0, true, true, 1⟩ []
        [⟨"test.mbox",
          [⟨"Test message 1", none, none, ""⟩,
           ⟨"Test message 2", none, none, ""⟩]⟩]).counters.messagesFailed =
      [⟨"Test message 1", none, none, ""⟩,
       (⟨"Test message 2", none, none, ""⟩ : EmailMessage)].length :=
  ⟨(message_failures_counted
      ⟨fun _ _ => .ok "LABEL_1", fun _ _ _ => .error (.serverError "Import Failed")⟩
      (fun _ => 0) ⟨0, true, true, 1⟩ "test.mbox"
      [⟨"Test message 1", none, none, ""⟩, ⟨"Test message 2", none, none, ""⟩]
      rfl (fun _ _ => ⟨"LABEL_1", rfl⟩)
      (fun _ _ _ => ⟨.serverError "Import Failed", rfl⟩)).1,
   (message_failures_counted
      ⟨fun _ _ => .ok "LABEL_1", fun _ _ _ => .error (.serverError "Import Failed")⟩
      (fun _ => 0) ⟨0, true, true, 1⟩ "test.mbox"
      [⟨"Test message 1", none, none, ""⟩, ⟨"Test message 2", none, none, ""⟩]
      rfl (fun _ _ => ⟨"LABEL_1", rfl⟩)
      (fun _ _ _ => ⟨.serverError "Import Failed", rfl⟩)).2.1⟩

/-! Helper lemmas for the per-user counters invariant. -/

theorem processArchive_preserves (env : RemoteEnv) (jitter : Nat → ℚ)
    (cfg : RunConfig) (acc : UserAcc) (a : Archive)
    (h1 : acc.counters.messagesImported + acc.counters.messagesFailed
      = acc.observed.length)
    (h2 : acc.counters.labelsFailed ≤ acc.counters.labelsSkippedOrFailed) :
    (processArchive env jitter cfg acc a).counters.messagesImported
      + (processArchive env jitter cfg acc a).counters.messagesFailed
      = (processArchive env jitter cfg acc a).observed.length
    ∧ (processArchive env jitter cfg acc a).counters.labelsFailed
      ≤ (processArchive env jitter cfg acc a).counters.labelsSkippedOrFailed := by
  rcases hres : resolveLabel env jitter cfg.numRetries acc.cache
      (stripExtension a.filename) with ⟨outcome, cache2, req⟩
  cases outcome with
  | found id =>
    have hc := importMessagesFrom_counts env jitter cfg id a.messages 0
    simp only [processArchive, hres, List.length_append]
    exact ⟨by omega, h2⟩
  | created id =>
    have hc := importMessagesFrom_counts env jitter cfg id a.messages 0
    simp only [processArchive, hres, List.length_append]
    exact ⟨by omega, h2⟩
  | skipped =>
    simp only [processArchive, hres]
    exact ⟨h1, by omega⟩
  | failed =>
    simp only [processArchive, hres]
    exact ⟨h1, by omega⟩

theorem foldl_processArchive_invariant (env : RemoteEnv) (jitter : Nat → ℚ)
    (cfg : RunConfig) :
    ∀ (archives : List Archive) (acc : UserAcc),
      acc.counters.messagesImported + acc.counters.messagesFailed
        = acc.observed.length →
      acc.counters.labelsFailed ≤ acc.counters.labelsSkippedOrFailed →
      ((archives.foldl (processArchive env jitter cfg) acc).counters.messagesImported
          + (archives.foldl (processArchive env jitter cfg) acc).counters.messagesFailed
          = (archives.foldl (processArchive env jitter cfg) acc).observed.length
        ∧ (archives.foldl (processArchive env jitter cfg) acc).counters.labelsFailed
          ≤ (archives.foldl (processArchive env jitter cfg) acc).counters.labelsSkippedOrFailed) := by
  intro archives
  induction archives with
  | nil => intro acc h1 h2; exact ⟨h1, h2⟩
  | cons a rest ih =>
    intro acc h1 h2
    have hstep := processArchive_preserves env jitter cfg acc a h1 h2
    exact ih (processArchive env jitter cfg acc a) hstep.1 hstep.2

/-- Claim C8: the per-user result is the five-tuple (labels-created,
labels-skipped-or-failed collapsed into one count, labels-failed,
messages-imported, messages-failed), so component 2 is the labels-failed
count, component 3 the messages-imported count and component 4 the
messages-failed count; moreover imported plus failed equals the number of
messages handed to the importer, and the labels-failed count never
exceeds the collapsed skipped-or-failed count. -/
theorem user_result_tuple (env : RemoteEnv) (jitter : Nat → ℚ)
    (cfg : RunConfig) (labels : List (String × String))
    (archives : List Archive) :
    processMboxFilesResult env jitter cfg labels archives =
      ((processMboxFiles env jitter cfg labels archives).counters.labelsCreated,
       (processMboxFiles env jitter cfg labels archives).counters.labelsSkippedOrFailed,
       (processMboxFiles env jitter cfg labels archives).counters.labelsFailed,
       (processMboxFiles env jitter cfg labels archives).counters.messagesImported,
       (processMboxFiles env jitter cfg labels archives).counters.messagesFailed)
    ∧ (processMboxFiles env jitter cfg labels archives).counters.messagesImported
        + (processMboxFiles env jitter cfg labels archives).counters.messagesFailed
        = (processMboxFiles env jitter cfg labels archives).observed.length
    ∧ (processMboxFiles env jitter cfg labels archives).counters.labelsFailed
        ≤ (processMboxFiles env jitter cfg labels archives).counters.labelsSkippedOrFailed := by
  refine ⟨rfl, ?_, ?_⟩
  · exact (foldl_processArchive_invariant env jitter cfg archives
      ⟨⟨0, 0, 0, 0, 0⟩, labels.map (fun p => (lowerStr p.1, p.2)), [], []⟩
      rfl (Nat.le_refl 0)).1
  · exact (foldl_processArchive_invariant env jitter cfg archives
      ⟨⟨0, 0, 0, 0, 0⟩, labels.map (fun p => (lowerStr p.1, p.2)), [], []⟩
      rfl (Nat.le_refl 0)).2

/-! The run level. -/

theorem processUsers_spec (pu : String → Option (Nat × Nat × Nat × Nat × Nat)) :
    ∀ users, processUsers pu users =
      ((users.filter fun u => (pu u).isNone).length, users) := by
  intro users
  induction users with
  | nil => rfl
  | cons u rest ih =>
    show ((if (pu u).isNone then 1 else 0) + (processUsers pu rest).1,
          u :: (processUsers pu rest).2) = _
    rw [ih]
    rw [List.filter_cons]
    cases h : (pu u).isNone <;> (simp [h]; try omega)

/-- Claim C9: every user is attempted — a user whose processing raises an
unrecovered error does not interrupt the processing of the later users —
each such failing user counts as exactly one failed user, and the run
emits a final summary line reporting the total count of failed users. -/
theorem run_failed_users (pu : String → Option (Nat × Nat × Nat × Nat × Nat))
    (users : List String) :
    (runMain pu users).2.1 = users
    ∧ (runMain pu users).1 = (users.filter fun u => (pu u).isNone).length
    ∧ (runMain pu users).2.2 =
        summaryLine ((users.filter fun u => (pu u).isNone).length) := by
  unfold runMain
  rw [processUsers_spec pu users]
  exact ⟨rfl, rfl, rfl⟩

/-! The build gate of src/build.py. -/

/-- Claim C10 (counterexample): with every discovered test passing but
PyInstaller neither importable nor installable, build.py calls
create_executable yet never invokes PyInstaller and exits with status 1,
so "invokes PyInstaller if and only if every test passes" is false at
this input. -/
theorem build_gate_counterexample :
    run_tests ⟨0, 0⟩ = true
    ∧ ¬ ((buildMain ⟨false, false⟩ ⟨0, 0⟩).ranPyInstaller = true ↔
        run_tests ⟨0, 0⟩ = true)
    ∧ (buildMain ⟨false, false⟩ ⟨0, 0⟩).exitCode = some 1 := by
  refine ⟨rfl, ?_, rfl⟩
  intro hiff
  exact absurd (hiff.2 rfl) (by decide)

/-- Claim C10 (amended): run as a script, build.py calls
create_executable exactly when every discovered test passes (zero
failures and zero errors), and PyInstaller is actually invoked exactly
when additionally it is importable or its pip installation succeeds;
when any test fails or errors the script exits with status 1 without
calling create_executable. -/
theorem build_gate_amended (env : BuildEnv) (r : TestRunResult) :
    ((buildMain env r).ranPyInstaller = true ↔
      (run_tests r = true
        ∧ (env.pyinstallerInstalled = true ∨ env.pipInstallSucceeds = true)))
    ∧ ((buildMain env r).calledCreateExecutable = true ↔ run_tests r = true)
    ∧ (run_tests r = true ↔ (r.failures = 0 ∧ r.errors = 0))
    ∧ (run_tests r = false → buildMain env r = ⟨false, false, some 1⟩) := by
  obtain ⟨pi, pip⟩ := env
  have hch : (run_tests r = true) ↔ (r.failures = 0 ∧ r.errors = 0) := by
    simp [run_tests]
  refine ⟨?_, ?_, hch, ?_⟩
  · by_cases h : run_tests r = true
    · cases pi <;> cases pip <;> simp [buildMain, create_executable, h]
    · cases pi <;> cases pip <;> simp [buildMain, create_executable, h]
  · by_cases h : run_tests r = true
    · cases pi <;> cases pip <;> simp [buildMain, create_executable, h]
    · cases pi <;> cases pip <;> simp [buildMain, create_executable, h]
  · intro hfalse
    simp [buildMain, hfalse]

/-- Witness for the amended claim C10: tests pass and PyInstaller is
installable, so PyInstaller is invoked. -/
theorem build_gate_amended_witness :
    ((buildMain ⟨false, true⟩ ⟨0, 0⟩).ranPyInstaller = true ↔
      (run_tests ⟨0, 0⟩ = true
        ∧ ((⟨false, true⟩ : BuildEnv).pyinstallerInstalled = true
            ∨ (⟨false, true⟩ : BuildEnv).pipInstallSucceeds = true))) :=
  (build_gate_amended ⟨false, true⟩ ⟨0, 0⟩).1

end ImportMailbox
